import Mathlib

/-!
Shallow embedding of the repository file src/cost_estimator.py: the pure
function calculate_financials together with the module-level pricing
constants it reads.  Python floats are modelled as real numbers.  The call
math.log10(mau + 1) raises ValueError when its argument is not positive, so
the embedded calculate_financials returns an Option Report, with none
modelling that exception; every other operation in the function is total.
Each definition below is named after the constant or local variable of the
Python source it translates.
-/

namespace CostEstimator

noncomputable section

/-- Pricing constant from cost_estimator.py line 6. -/
def PRICE_PER_VIDEO_MINUTE_TRANSCODE : ℝ := 0.0075

/-- Pricing constant from cost_estimator.py line 7. -/
def PRICE_PER_1000_CHARS_AI : ℝ := 0.09

/-- Pricing constant from cost_estimator.py line 8. -/
def PRICE_PER_GB_STORAGE : ℝ := 0.015

/-- Pricing constant from cost_estimator.py line 9. -/
def PRICE_PER_MILLION_READ_OPS : ℝ := 0.36

/-- Ad eligibility threshold from cost_estimator.py line 10. -/
def AD_IMPRESSION_THRESHOLD : ℝ := 2000000

/-- The costs dict built by calculate_financials: five components plus the
total entry. -/
structure Costs where
  media_processing : ℝ
  storage_delivery : ℝ
  database : ℝ
  compute_recommendation : ℝ
  devops : ℝ
  total : ℝ

/-- The dict returned by calculate_financials. -/
structure Report where
  costs : Costs
  subscription_revenue : ℝ
  ad_revenue : ℝ
  total_revenue : ℝ
  net_profit : ℝ
  ad_eligibility_message : String

/-- Local variable dau, line 25. -/
def dau (mau dau_percent : ℝ) : ℝ := mau * (dau_percent / 100)

/-- Local variable videos_per_month, line 26. -/
def videos_per_month (mau dau_percent upload_percent : ℝ) : ℝ :=
  dau mau dau_percent * (upload_percent / 100) * 30

/-- Local variable chars_per_video, line 27. -/
def chars_per_video (video_length_sec : ℝ) : ℝ := (video_length_sec / 30) * 450

/-- Local variable num_renditions, line 28. -/
def num_renditions : ℝ := 5

/-- Local variable transcode_cost, line 30. -/
def transcode_cost (mau dau_percent upload_percent video_length_sec : ℝ) : ℝ :=
  videos_per_month mau dau_percent upload_percent * (video_length_sec / 60) *
    num_renditions * PRICE_PER_VIDEO_MINUTE_TRANSCODE

/-- Local variable ai_cost, line 31. -/
def ai_cost (mau dau_percent upload_percent video_length_sec : ℝ) : ℝ :=
  videos_per_month mau dau_percent upload_percent *
    (chars_per_video video_length_sec * 2) / 1000 * PRICE_PER_1000_CHARS_AI

/-- The media_processing entry of the costs dict, line 32. -/
def media_processing_cost (mau dau_percent upload_percent video_length_sec : ℝ) : ℝ :=
  transcode_cost mau dau_percent upload_percent video_length_sec +
    ai_cost mau dau_percent upload_percent video_length_sec

/-- Local variable total_videos_stored, line 34. -/
def total_videos_stored (mau dau_percent upload_percent : ℝ) : ℝ :=
  videos_per_month mau dau_percent upload_percent * 12

/-- Local variable total_gb_stored, line 35. -/
def total_gb_stored (mau dau_percent upload_percent : ℝ) : ℝ :=
  total_videos_stored mau dau_percent upload_percent * 75 / 1024

/-- Local variable storage_cost, line 36. -/
def storage_cost (mau dau_percent upload_percent : ℝ) : ℝ :=
  total_gb_stored mau dau_percent upload_percent * PRICE_PER_GB_STORAGE

/-- Local variable total_gb_delivered, line 39. -/
def total_gb_delivered (mau data_consumption_gb : ℝ) : ℝ := mau * data_consumption_gb

/-- Local variable read_ops_millions, line 40. -/
def read_ops_millions (mau data_consumption_gb : ℝ) : ℝ :=
  total_gb_delivered mau data_consumption_gb / 10

/-- Local variable read_ops_cost, line 41. -/
def read_ops_cost (mau data_consumption_gb : ℝ) : ℝ :=
  read_ops_millions mau data_consumption_gb * PRICE_PER_MILLION_READ_OPS

/-- The storage_delivery entry of the costs dict, line 42. -/
def storage_delivery_cost (mau dau_percent upload_percent data_consumption_gb : ℝ) : ℝ :=
  storage_cost mau dau_percent upload_percent + read_ops_cost mau data_consumption_gb

/-- Local variable scale_factor, line 44; math.log10 is Real.logb 10. -/
def scale_factor (mau : ℝ) : ℝ := Real.logb 10 (mau + 1) / Real.logb 10 100000

/-- The database entry of the costs dict, line 45. -/
def database_cost (mau : ℝ) : ℝ := 2550 * scale_factor mau ^ (1.5 : ℝ)

/-- The compute_recommendation entry of the costs dict, line 46. -/
def compute_recommendation_cost (mau : ℝ) : ℝ := 3250 * scale_factor mau ^ (1.8 : ℝ)

/-- The devops entry of the costs dict, line 47. -/
def devops_cost (mau : ℝ) : ℝ := 50 * scale_factor mau

/-- The costs dict of the mau == 0 branch, line 22: every entry 0. -/
def costs_zero : Costs := ⟨0, 0, 0, 0, 0, 0⟩

/-- The costs dict of the mau != 0 branch, lines 24 to 48; its total entry is
sum of the five component entries present when line 48 runs. -/
def costs_main (mau dau_percent upload_percent video_length_sec data_consumption_gb : ℝ) :
    Costs :=
  { media_processing := media_processing_cost mau dau_percent upload_percent video_length_sec
    storage_delivery := storage_delivery_cost mau dau_percent upload_percent data_consumption_gb
    database := database_cost mau
    compute_recommendation := compute_recommendation_cost mau
    devops := devops_cost mau
    total := media_processing_cost mau dau_percent upload_percent video_length_sec +
      storage_delivery_cost mau dau_percent upload_percent data_consumption_gb +
      database_cost mau + compute_recommendation_cost mau + devops_cost mau }

/-- Local variable num_subscribers, line 52. -/
def num_subscribers (mau sub_percent : ℝ) : ℝ := mau * (sub_percent / 100)

/-- Local variable subscription_revenue, line 53. -/
def subscription_revenue (mau sub_percent sub_price : ℝ) : ℝ :=
  num_subscribers mau sub_percent * sub_price

/-- Local variable mb_per_video, line 57. -/
def mb_per_video (video_length_sec : ℝ) : ℝ := (video_length_sec / 30) * 15

/-- Local variable gb_per_video, line 58. -/
def gb_per_video (video_length_sec : ℝ) : ℝ := mb_per_video video_length_sec / 1024

/-- Local variable views_per_user, line 59, with the gb_per_video > 0 guard. -/
def views_per_user (video_length_sec data_consumption_gb : ℝ) : ℝ :=
  if 0 < gb_per_video video_length_sec then
    data_consumption_gb / gb_per_video video_length_sec
  else 0

/-- Local variable total_monthly_impressions, line 60. -/
def total_monthly_impressions (mau video_length_sec data_consumption_gb : ℝ) : ℝ :=
  mau * views_per_user video_length_sec data_consumption_gb

/-- The eligibility string of line 66. -/
def eligible_message : String := "✅ Platform is eligible for AdSense for Video."

/-- The eligibility string of line 68, with the threshold formatted by the
f-string as 2,000,000. -/
def not_eligible_message : String :=
  "⚠️ Platform is NOT eligible for AdSense. Needs >2,000,000 monthly views."

/-- Local variable ad_revenue after lines 62 to 68. -/
def ad_revenue_amount (mau video_length_sec data_consumption_gb ad_rpm : ℝ) : ℝ :=
  if AD_IMPRESSION_THRESHOLD ≤ total_monthly_impressions mau video_length_sec data_consumption_gb
  then total_monthly_impressions mau video_length_sec data_consumption_gb / 1000 * ad_rpm
  else 0

/-- Local variable ad_eligibility_message after lines 63 to 68. -/
def eligibility_text (mau video_length_sec data_consumption_gb : ℝ) : String :=
  if AD_IMPRESSION_THRESHOLD ≤ total_monthly_impressions mau video_length_sec data_consumption_gb
  then eligible_message
  else not_eligible_message

/-- The revenue and profit part of calculate_financials, lines 50 to 82,
assembled on top of a given costs dict. -/
def report_with_costs (costs : Costs)
    (mau video_length_sec sub_price sub_percent ad_rpm data_consumption_gb : ℝ) : Report :=
  { costs := costs
    subscription_revenue := subscription_revenue mau sub_percent sub_price
    ad_revenue := ad_revenue_amount mau video_length_sec data_consumption_gb ad_rpm
    total_revenue := subscription_revenue mau sub_percent sub_price +
      ad_revenue_amount mau video_length_sec data_consumption_gb ad_rpm
    net_profit := subscription_revenue mau sub_percent sub_price +
      ad_revenue_amount mau video_length_sec data_consumption_gb ad_rpm - costs.total
    ad_eligibility_message := eligibility_text mau video_length_sec data_consumption_gb }

/-- calculate_financials, lines 13 to 82.  When mau != 0 the else branch
evaluates math.log10(mau + 1), which raises ValueError unless 0 < mau + 1;
that exception is modelled by none. -/
def calculate_financials (mau dau_percent upload_percent video_length_sec
    sub_price sub_percent ad_rpm data_consumption_gb : ℝ) : Option Report :=
  if mau = 0 then
    some (report_with_costs costs_zero
      mau video_length_sec sub_price sub_percent ad_rpm data_consumption_gb)
  else if 0 < mau + 1 then
    some (report_with_costs
      (costs_main mau dau_percent upload_percent video_length_sec data_consumption_gb)
      mau video_length_sec sub_price sub_percent ad_rpm data_consumption_gb)
  else
    none

/-- The base-10 logarithm of the normalisation constant 100000 is 5. -/
lemma logb_ten_1e5 : Real.logb 10 100000 = 5 := by
  have h : (100000 : ℝ) = 10 ^ (5 : ℕ) := by norm_num
  rw [h, Real.logb_pow, Real.logb_self_eq_one (by norm_num)]
  norm_num

/-- C1: in both branches of calculate_financials, the total entry of the
costs dict equals the sum of the five component entries. -/
theorem costs_total_is_sum (mau dp up vls sp spc arpm dcg : ℝ) (r : Report)
    (h : calculate_financials mau dp up vls sp spc arpm dcg = some r) :
    r.costs.total = r.costs.media_processing + r.costs.storage_delivery +
      r.costs.database + r.costs.compute_recommendation + r.costs.devops := by
  unfold calculate_financials at h
  split_ifs at h with h0 h1
  · rw [Option.some.injEq] at h
    subst h
    simp [report_with_costs, costs_zero]
  · rw [Option.some.injEq] at h
    subst h
    simp [report_with_costs, costs_main]

/-- Witness for C1 at a concrete input with mau = 0. -/
theorem costs_total_is_sum_witness :
    (report_with_costs costs_zero 0 30 0 0 0 0).costs.total =
      (report_with_costs costs_zero 0 30 0 0 0 0).costs.media_processing +
      (report_with_costs costs_zero 0 30 0 0 0 0).costs.storage_delivery +
      (report_with_costs costs_zero 0 30 0 0 0 0).costs.database +
      (report_with_costs costs_zero 0 30 0 0 0 0).costs.compute_recommendation +
      (report_with_costs costs_zero 0 30 0 0 0 0).costs.devops :=
  costs_total_is_sum 0 0 0 30 0 0 0 0 _ (by unfold calculate_financials; exact if_pos rfl)

/-- Any report returned by calculate_financials comes from one of the two
branches of the cost section. -/
lemma cf_some_elim {mau dp up vls sp spc arpm dcg : ℝ} {r : Report}
    (h : calculate_financials mau dp up vls sp spc arpm dcg = some r) :
    (mau = 0 ∧ r = report_with_costs costs_zero mau vls sp spc arpm dcg) ∨
      (mau ≠ 0 ∧ 0 < mau + 1 ∧
        r = report_with_costs (costs_main mau dp up vls dcg) mau vls sp spc arpm dcg) := by
  unfold calculate_financials at h
  split_ifs at h with h0 h1
  · rw [Option.some.injEq] at h
    exact Or.inl ⟨h0, h.symm⟩
  · rw [Option.some.injEq] at h
    exact Or.inr ⟨h0, h1, h.symm⟩

/-- C2: the returned report satisfies total_revenue = subscription_revenue +
ad_revenue and net_profit = total_revenue - costs.total. -/
theorem revenue_profit_identities (mau dp up vls sp spc arpm dcg : ℝ) (r : Report)
    (h : calculate_financials mau dp up vls sp spc arpm dcg = some r) :
    r.total_revenue = r.subscription_revenue + r.ad_revenue ∧
      r.net_profit = r.total_revenue - r.costs.total := by
  unfold calculate_financials at h
  split_ifs at h with h0 h1
  · rw [Option.some.injEq] at h
    subst h
    exact ⟨rfl, rfl⟩
  · rw [Option.some.injEq] at h
    subst h
    exact ⟨rfl, rfl⟩

/-- Witness for C2 at a concrete input with mau = 0. -/
theorem revenue_profit_identities_witness :
    (report_with_costs costs_zero 0 30 5 10 0.1 0.7).total_revenue =
      (report_with_costs costs_zero 0 30 5 10 0.1 0.7).subscription_revenue +
      (report_with_costs costs_zero 0 30 5 10 0.1 0.7).ad_revenue ∧
    (report_with_costs costs_zero 0 30 5 10 0.1 0.7).net_profit =
      (report_with_costs costs_zero 0 30 5 10 0.1 0.7).total_revenue -
      (report_with_costs costs_zero 0 30 5 10 0.1 0.7).costs.total :=
  revenue_profit_identities 0 20 5 30 5 10 0.1 0.7 _
    (by unfold calculate_financials; exact if_pos rfl)

/-- With mau = 0 the impressions count is 0. -/
lemma impressions_zero_mau (vls dcg : ℝ) : total_monthly_impressions 0 vls dcg = 0 := by
  unfold total_monthly_impressions
  ring

/-- With mau = 0 the threshold test of line 64 fails. -/
lemma not_eligible_zero_mau (vls dcg : ℝ) :
    ¬ AD_IMPRESSION_THRESHOLD ≤ total_monthly_impressions 0 vls dcg := by
  rw [impressions_zero_mau]
  unfold AD_IMPRESSION_THRESHOLD
  norm_num

/-- C4: with monthlyActiveUsers = 0, every cost entry of the report is 0 and
so is the subscription revenue, whatever the other seven inputs are. -/
theorem zero_mau_zero_costs (dp up vls sp spc arpm dcg : ℝ) (r : Report)
    (h : calculate_financials 0 dp up vls sp spc arpm dcg = some r) :
    r.costs.media_processing = 0 ∧ r.costs.storage_delivery = 0 ∧
      r.costs.database = 0 ∧ r.costs.compute_recommendation = 0 ∧
      r.costs.devops = 0 ∧ r.costs.total = 0 ∧ r.subscription_revenue = 0 := by
  unfold calculate_financials at h
  rw [if_pos rfl, Option.some.injEq] at h
  subst h
  refine ⟨rfl, rfl, rfl, rfl, rfl, rfl, ?_⟩
  show subscription_revenue 0 spc sp = 0
  unfold subscription_revenue num_subscribers
  ring

/-- Witness for C4 at a concrete input. -/
theorem zero_mau_zero_costs_witness :
    (report_with_costs costs_zero 0 30 7.99 2 0.1 0.7).costs.media_processing = 0 ∧
    (report_with_costs costs_zero 0 30 7.99 2 0.1 0.7).costs.storage_delivery = 0 ∧
    (report_with_costs costs_zero 0 30 7.99 2 0.1 0.7).costs.database = 0 ∧
    (report_with_costs costs_zero 0 30 7.99 2 0.1 0.7).costs.compute_recommendation = 0 ∧
    (report_with_costs costs_zero 0 30 7.99 2 0.1 0.7).costs.devops = 0 ∧
    (report_with_costs costs_zero 0 30 7.99 2 0.1 0.7).costs.total = 0 ∧
    (report_with_costs costs_zero 0 30 7.99 2 0.1 0.7).subscription_revenue = 0 :=
  zero_mau_zero_costs 20 5 30 7.99 2 0.1 0.7 _
    (by unfold calculate_financials; exact if_pos rfl)

/-- C9: with monthlyActiveUsers = 0 the report also has zero ad revenue,
zero total revenue, zero net profit, and the not-eligible message. -/
theorem zero_mau_zero_revenue (dp up vls sp spc arpm dcg : ℝ) (r : Report)
    (h : calculate_financials 0 dp up vls sp spc arpm dcg = some r) :
    r.ad_revenue = 0 ∧ r.total_revenue = 0 ∧ r.net_profit = 0 ∧
      r.ad_eligibility_message = not_eligible_message := by
  unfold calculate_financials at h
  rw [if_pos rfl, Option.some.injEq] at h
  subst h
  have hsub : subscription_revenue 0 spc sp = 0 := by
    unfold subscription_revenue num_subscribers
    ring
  have had : ad_revenue_amount 0 vls dcg arpm = 0 := by
    unfold ad_revenue_amount
    rw [if_neg (not_eligible_zero_mau vls dcg)]
  have hmsg : eligibility_text 0 vls dcg = not_eligible_message := by
    unfold eligibility_text
    rw [if_neg (not_eligible_zero_mau vls dcg)]
  refine ⟨had, ?_, ?_, hmsg⟩
  · show subscription_revenue 0 spc sp + ad_revenue_amount 0 vls dcg arpm = 0
    rw [hsub, had]
    ring
  · show subscription_revenue 0 spc sp + ad_revenue_amount 0 vls dcg arpm -
      costs_zero.total = 0
    rw [hsub, had]
    show (0 : ℝ) + 0 - 0 = 0
    ring

/-- Witness for C9 at a concrete input. -/
theorem zero_mau_zero_revenue_witness :
    (report_with_costs costs_zero 0 60 7.99 2 0.1 0.7).ad_revenue = 0 ∧
    (report_with_costs costs_zero 0 60 7.99 2 0.1 0.7).total_revenue = 0 ∧
    (report_with_costs costs_zero 0 60 7.99 2 0.1 0.7).net_profit = 0 ∧
    (report_with_costs costs_zero 0 60 7.99 2 0.1 0.7).ad_eligibility_message =
      not_eligible_message :=
  zero_mau_zero_revenue 20 5 60 7.99 2 0.1 0.7 _
    (by unfold calculate_financials; exact if_pos rfl)

/-- C3: the ad revenue and the eligibility message follow the threshold test
on total monthly impressions; at the exact threshold with adRpm in its slider
domain the ad revenue is positive, and below the threshold it is 0. -/
theorem ad_threshold_behavior (mau dp up vls sp spc arpm dcg : ℝ) (r : Report)
    (h : calculate_financials mau dp up vls sp spc arpm dcg = some r) :
    (AD_IMPRESSION_THRESHOLD ≤ total_monthly_impressions mau vls dcg →
      r.ad_revenue = total_monthly_impressions mau vls dcg / 1000 * arpm ∧
        r.ad_eligibility_message = eligible_message) ∧
    (total_monthly_impressions mau vls dcg < AD_IMPRESSION_THRESHOLD →
      r.ad_revenue = 0 ∧ r.ad_eligibility_message = not_eligible_message) ∧
    (total_monthly_impressions mau vls dcg = 2000000 → 0.04 ≤ arpm → arpm ≤ 0.25 →
      0 < r.ad_revenue) := by
  have hr : r.ad_revenue = ad_revenue_amount mau vls dcg arpm ∧
      r.ad_eligibility_message = eligibility_text mau vls dcg := by
    rcases cf_some_elim h with ⟨_, rfl⟩ | ⟨_, _, rfl⟩
    · exact ⟨rfl, rfl⟩
    · exact ⟨rfl, rfl⟩
  refine ⟨fun hge => ?_, fun hlt => ?_, fun heq h04 _ => ?_⟩
  · rw [hr.1, hr.2]
    unfold ad_revenue_amount eligibility_text
    rw [if_pos hge, if_pos hge]
    exact ⟨rfl, rfl⟩
  · rw [hr.1, hr.2]
    unfold ad_revenue_amount eligibility_text
    rw [if_neg (not_le.mpr hlt), if_neg (not_le.mpr hlt)]
    exact ⟨rfl, rfl⟩
  · rw [hr.1]
    unfold ad_revenue_amount
    have hge : AD_IMPRESSION_THRESHOLD ≤ total_monthly_impressions mau vls dcg := by
      rw [heq]
      unfold AD_IMPRESSION_THRESHOLD
      norm_num
    rw [if_pos hge, heq]
    nlinarith

/-- Witness for C3: an input hitting the threshold exactly, with positive ad
revenue. -/
theorem ad_threshold_behavior_witness :
    0 < (report_with_costs (costs_main 2000000 20 5 30 (15 / 1024))
        2000000 30 7.99 2 0.1 (15 / 1024)).ad_revenue :=
  (ad_threshold_behavior 2000000 20 5 30 7.99 2 0.1 (15 / 1024) _
      (by unfold calculate_financials
          rw [if_neg (by norm_num), if_pos (by norm_num)])).2.2
    (by unfold total_monthly_impressions views_per_user gb_per_video mb_per_video
        rw [if_pos (by norm_num)]
        norm_num)
    (by norm_num) (by norm_num)

/-- At mau = 100000 the scale factor is strictly greater than 1, because the
code takes log10 of mau + 1 = 100001. -/
lemma one_lt_scale_factor_1e5 : 1 < scale_factor 100000 := by
  unfold scale_factor
  rw [logb_ten_1e5, lt_div_iff₀ (by norm_num : (0:ℝ) < 5), one_mul, ← logb_ten_1e5]
  exact Real.logb_lt_logb (by norm_num) (by norm_num) (by norm_num)

/-- Counterexample to C5 as stated: at mau = 100000 the scale factor is not
1 (it is strictly greater, since the code evaluates log10(100001)/log10(100000)). -/
theorem scale_factor_at_1e5_ne_one : scale_factor 100000 ≠ 1 := by
  have h : 1 < scale_factor 100000 := by
    unfold scale_factor
    rw [logb_ten_1e5, lt_div_iff₀ (by norm_num : (0:ℝ) < 5), one_mul, ← logb_ten_1e5]
    exact Real.logb_lt_logb (by norm_num) (by norm_num) (by norm_num)
  exact ne_of_gt h

/-- C5 amended: scale_factor mau is log10(mau + 1) / log10(100000); because
of the + 1 it equals 1 exactly at mau = 99999, and at mau = 100000 it is
strictly greater than 1. -/
theorem scale_factor_anchor :
    (∀ mau : ℝ, scale_factor mau = Real.logb 10 (mau + 1) / Real.logb 10 100000) ∧
      scale_factor 99999 = 1 ∧ 1 < scale_factor 100000 := by
  refine ⟨fun mau => rfl, ?_, one_lt_scale_factor_1e5⟩
  unfold scale_factor
  rw [show (99999 : ℝ) + 1 = 100000 by norm_num]
  rw [div_self]
  rw [logb_ten_1e5]
  norm_num

/-- Counterexample to C6 as stated: at mau = -1 the else branch evaluates
math.log10(0), which raises ValueError, so no report is returned. -/
theorem cf_neg_mau_raises : calculate_financials (-1) 20 5 30 7.99 2 0.1 0.7 = none := by
  unfold calculate_financials
  rw [if_neg (by norm_num), if_neg (by norm_num)]

/-- C6 amended: calculate_financials returns a report normally for every
input with monthlyActiveUsers at least 0; for mau at most -1 the call
math.log10(mau + 1) raises ValueError instead of propagating the value. -/
theorem cf_total_on_nonneg_mau (mau dp up vls sp spc arpm dcg : ℝ) (h : 0 ≤ mau) :
    ∃ r, calculate_financials mau dp up vls sp spc arpm dcg = some r := by
  unfold calculate_financials
  by_cases h0 : mau = 0
  · rw [if_pos h0]
    exact ⟨_, rfl⟩
  · rw [if_neg h0, if_pos (by linarith : (0:ℝ) < mau + 1)]
    exact ⟨_, rfl⟩

/-- Witness for C6 amended at a concrete input. -/
theorem cf_total_on_nonneg_mau_witness :
    ∃ r, calculate_financials 1000000 20 5 30 7.99 2 0.1 0.7 = some r :=
  cf_total_on_nonneg_mau 1000000 20 5 30 7.99 2 0.1 0.7 (by norm_num)

/-- C7: views_per_user is 0 whenever gb_per_video is not positive, so the
division of line 59 is guarded; and for every positive videoLengthSeconds,
gb_per_video is positive, so that zero branch is unreachable and the
division is taken. -/
theorem views_per_user_guard (vls dcg : ℝ) :
    (gb_per_video vls ≤ 0 → views_per_user vls dcg = 0) ∧
      (0 < vls → 0 < gb_per_video vls ∧
        views_per_user vls dcg = dcg / gb_per_video vls) := by
  constructor
  · intro hle
    unfold views_per_user
    rw [if_neg (not_lt.mpr hle)]
  · intro hv
    have hg : 0 < gb_per_video vls := by
      unfold gb_per_video mb_per_video
      positivity
    refine ⟨hg, ?_⟩
    unfold views_per_user
    rw [if_pos hg]

/-- Witness for C7 at the slider default video length. -/
theorem views_per_user_guard_witness :
    0 < gb_per_video 30 ∧ views_per_user 30 0.7 = 0.7 / gb_per_video 30 :=
  (views_per_user_guard 30 0.7).2 (by norm_num)

/-- The denominator log10(100000) of the scale factor is positive. -/
lemma logb_ten_1e5_pos : (0:ℝ) < Real.logb 10 100000 := by
  rw [logb_ten_1e5]
  norm_num

/-- The scale factor is nonnegative for nonnegative mau. -/
lemma scale_factor_nonneg {mau : ℝ} (h : 0 ≤ mau) : 0 ≤ scale_factor mau := by
  unfold scale_factor
  exact div_nonneg (Real.logb_nonneg (by norm_num) (by linarith)) logb_ten_1e5_pos.le

/-- The scale factor is monotone on nonnegative mau. -/
lemma scale_factor_mono {a b : ℝ} (ha : 0 ≤ a) (hab : a ≤ b) :
    scale_factor a ≤ scale_factor b := by
  unfold scale_factor
  exact (div_le_div_iff_of_pos_right logb_ten_1e5_pos).mpr
    (Real.logb_le_logb_of_le (by norm_num) (by linarith) (by linarith))

/-- The database cost is nonnegative for nonnegative mau. -/
lemma database_cost_nonneg {mau : ℝ} (h : 0 ≤ mau) : 0 ≤ database_cost mau := by
  unfold database_cost
  have h1 := Real.rpow_nonneg (scale_factor_nonneg h) (1.5 : ℝ)
  linarith

/-- The database cost is monotone in mau on nonnegative mau. -/
lemma database_cost_mono {a b : ℝ} (ha : 0 ≤ a) (hab : a ≤ b) :
    database_cost a ≤ database_cost b := by
  unfold database_cost
  have h1 := Real.rpow_le_rpow (scale_factor_nonneg ha) (scale_factor_mono ha hab)
    (by norm_num : (0:ℝ) ≤ 1.5)
  linarith

/-- The compute_recommendation cost is nonnegative for nonnegative mau. -/
lemma compute_recommendation_cost_nonneg {mau : ℝ} (h : 0 ≤ mau) :
    0 ≤ compute_recommendation_cost mau := by
  unfold compute_recommendation_cost
  have h1 := Real.rpow_nonneg (scale_factor_nonneg h) (1.8 : ℝ)
  linarith

/-- The compute_recommendation cost is monotone in mau on nonnegative mau. -/
lemma compute_recommendation_cost_mono {a b : ℝ} (ha : 0 ≤ a) (hab : a ≤ b) :
    compute_recommendation_cost a ≤ compute_recommendation_cost b := by
  unfold compute_recommendation_cost
  have h1 := Real.rpow_le_rpow (scale_factor_nonneg ha) (scale_factor_mono ha hab)
    (by norm_num : (0:ℝ) ≤ 1.8)
  linarith

/-- The devops cost is nonnegative for nonnegative mau. -/
lemma devops_cost_nonneg {mau : ℝ} (h : 0 ≤ mau) : 0 ≤ devops_cost mau := by
  unfold devops_cost
  have h1 := scale_factor_nonneg h
  linarith

/-- The devops cost is monotone in mau on nonnegative mau. -/
lemma devops_cost_mono {a b : ℝ} (ha : 0 ≤ a) (hab : a ≤ b) :
    devops_cost a ≤ devops_cost b := by
  unfold devops_cost
  have h1 := scale_factor_mono ha hab
  linarith

/-- The storage and delivery cost is linear in mau. -/
lemma storage_delivery_cost_eq (mau dp up dcg : ℝ) :
    storage_delivery_cost mau dp up dcg =
      mau * (dp / 100 * (up / 100) * 30 * 12 * 75 / 1024 * PRICE_PER_GB_STORAGE +
        dcg / 10 * PRICE_PER_MILLION_READ_OPS) := by
  unfold storage_delivery_cost storage_cost total_gb_stored total_videos_stored
    videos_per_month dau read_ops_cost read_ops_millions total_gb_delivered
  ring

/-- The coefficient of mau in the storage and delivery cost is nonnegative on
the slider domain. -/
lemma storage_delivery_coeff_nonneg {dp up dcg : ℝ} (hdp : 0 ≤ dp) (hup : 0 ≤ up)
    (hdcg : 0 ≤ dcg) :
    0 ≤ dp / 100 * (up / 100) * 30 * 12 * 75 / 1024 * PRICE_PER_GB_STORAGE +
      dcg / 10 * PRICE_PER_MILLION_READ_OPS := by
  unfold PRICE_PER_GB_STORAGE PRICE_PER_MILLION_READ_OPS
  nlinarith [mul_nonneg hdp hup, hdcg]

/-- The storage and delivery cost is nonnegative on the slider domain. -/
lemma storage_delivery_cost_nonneg {mau dp up dcg : ℝ} (hm : 0 ≤ mau) (hdp : 0 ≤ dp)
    (hup : 0 ≤ up) (hdcg : 0 ≤ dcg) : 0 ≤ storage_delivery_cost mau dp up dcg := by
  rw [storage_delivery_cost_eq]
  exact mul_nonneg hm (storage_delivery_coeff_nonneg hdp hup hdcg)

/-- The storage and delivery cost is monotone in mau on the slider domain. -/
lemma storage_delivery_cost_mono {a b dp up dcg : ℝ} (hdp : 0 ≤ dp) (hup : 0 ≤ up)
    (hdcg : 0 ≤ dcg) (hab : a ≤ b) :
    storage_delivery_cost a dp up dcg ≤ storage_delivery_cost b dp up dcg := by
  rw [storage_delivery_cost_eq, storage_delivery_cost_eq]
  exact mul_le_mul_of_nonneg_right hab (storage_delivery_coeff_nonneg hdp hup hdcg)

/-- The subscription revenue is linear in mau. -/
lemma subscription_revenue_eq (mau spc sp : ℝ) :
    subscription_revenue mau spc sp = mau * (spc / 100 * sp) := by
  unfold subscription_revenue num_subscribers
  ring

/-- The subscription revenue is nonnegative on the slider domain. -/
lemma subscription_revenue_nonneg {mau spc sp : ℝ} (hm : 0 ≤ mau) (hspc : 0 ≤ spc)
    (hsp : 0 ≤ sp) : 0 ≤ subscription_revenue mau spc sp := by
  rw [subscription_revenue_eq]
  exact mul_nonneg hm (mul_nonneg (by linarith) hsp)

/-- The subscription revenue is monotone in mau on the slider domain. -/
lemma subscription_revenue_mono {a b spc sp : ℝ} (hspc : 0 ≤ spc) (hsp : 0 ≤ sp)
    (hab : a ≤ b) : subscription_revenue a spc sp ≤ subscription_revenue b spc sp := by
  rw [subscription_revenue_eq, subscription_revenue_eq]
  exact mul_le_mul_of_nonneg_right hab (mul_nonneg (by linarith) hsp)

/-- C8: with all other inputs fixed in their domains, increasing
monthlyActiveUsers from a nonnegative value never decreases the database,
compute_recommendation, devops and storage_delivery costs, nor the
subscription revenue. -/
theorem mau_monotonicity (mau1 mau2 dp up vls sp spc arpm dcg : ℝ) (r1 r2 : Report)
    (hdp : 0 ≤ dp) (hup : 0 ≤ up) (hdcg : 0 ≤ dcg) (hsp : 0 ≤ sp) (hspc : 0 ≤ spc)
    (hm1 : 0 ≤ mau1) (h12 : mau1 ≤ mau2)
    (h1 : calculate_financials mau1 dp up vls sp spc arpm dcg = some r1)
    (h2 : calculate_financials mau2 dp up vls sp spc arpm dcg = some r2) :
    r1.costs.database ≤ r2.costs.database ∧
      r1.costs.compute_recommendation ≤ r2.costs.compute_recommendation ∧
      r1.costs.devops ≤ r2.costs.devops ∧
      r1.costs.storage_delivery ≤ r2.costs.storage_delivery ∧
      r1.subscription_revenue ≤ r2.subscription_revenue := by
  rcases cf_some_elim h1 with ⟨hz1, rfl⟩ | ⟨hnz1, hp1, rfl⟩
  · rcases cf_some_elim h2 with ⟨hz2, rfl⟩ | ⟨hnz2, hp2, rfl⟩
    · subst hz1
      subst hz2
      exact ⟨le_refl _, le_refl _, le_refl _, le_refl _, le_refl _⟩
    · subst hz1
      exact ⟨database_cost_nonneg h12, compute_recommendation_cost_nonneg h12,
        devops_cost_nonneg h12, storage_delivery_cost_nonneg h12 hdp hup hdcg,
        subscription_revenue_mono hspc hsp h12⟩
  · rcases cf_some_elim h2 with ⟨hz2, rfl⟩ | ⟨hnz2, hp2, rfl⟩
    · subst hz2
      exact absurd (le_antisymm h12 hm1) hnz1
    · exact ⟨database_cost_mono hm1 h12, compute_recommendation_cost_mono hm1 h12,
        devops_cost_mono hm1 h12, storage_delivery_cost_mono hdp hup hdcg h12,
        subscription_revenue_mono hspc hsp h12⟩

/-- Witness for C8 crossing from the mau = 0 branch to the mau = 9 branch. -/
theorem mau_monotonicity_witness :
    (report_with_costs costs_zero 0 30 0 0 0 0).costs.database ≤
      (report_with_costs (costs_main 9 0 0 30 0) 9 30 0 0 0 0).costs.database ∧
    (report_with_costs costs_zero 0 30 0 0 0 0).costs.compute_recommendation ≤
      (report_with_costs (costs_main 9 0 0 30 0) 9 30 0 0 0 0).costs.compute_recommendation ∧
    (report_with_costs costs_zero 0 30 0 0 0 0).costs.devops ≤
      (report_with_costs (costs_main 9 0 0 30 0) 9 30 0 0 0 0).costs.devops ∧
    (report_with_costs costs_zero 0 30 0 0 0 0).costs.storage_delivery ≤
      (report_with_costs (costs_main 9 0 0 30 0) 9 30 0 0 0 0).costs.storage_delivery ∧
    (report_with_costs costs_zero 0 30 0 0 0 0).subscription_revenue ≤
      (report_with_costs (costs_main 9 0 0 30 0) 9 30 0 0 0 0).subscription_revenue :=
  mau_monotonicity 0 9 0 0 30 0 0 0 0 _ _ (le_refl 0) (le_refl 0) (le_refl 0) (le_refl 0)
    (le_refl 0) (le_refl 0) (by norm_num)
    (by unfold calculate_financials; exact if_pos rfl)
    (by unfold calculate_financials; rw [if_neg (by norm_num), if_pos (by norm_num)])

/-- The media processing cost is nonnegative on the slider domain. -/
lemma media_processing_cost_nonneg {mau dp up vls : ℝ} (hm : 0 ≤ mau) (hdp : 0 ≤ dp)
    (hup : 0 ≤ up) (hvls : 0 ≤ vls) : 0 ≤ media_processing_cost mau dp up vls := by
  unfold media_processing_cost transcode_cost ai_cost videos_per_month dau chars_per_video
    num_renditions PRICE_PER_VIDEO_MINUTE_TRANSCODE PRICE_PER_1000_CHARS_AI
  nlinarith [mul_nonneg (mul_nonneg (mul_nonneg hm hdp) hup) hvls]

/-- The ad revenue is nonnegative whenever adRpm is. -/
lemma ad_revenue_amount_nonneg (mau vls dcg : ℝ) {arpm : ℝ} (harpm : 0 ≤ arpm) :
    0 ≤ ad_revenue_amount mau vls dcg arpm := by
  unfold ad_revenue_amount
  split_ifs with hcond
  · have h0 : (0:ℝ) ≤ total_monthly_impressions mau vls dcg := by
      refine le_trans ?_ hcond
      unfold AD_IMPRESSION_THRESHOLD
      norm_num
    exact mul_nonneg (div_nonneg h0 (by norm_num)) harpm
  · exact le_refl 0

/-- C10: on the slider domains every cost component, the total cost,
the subscription revenue, the ad revenue and the total revenue of the
returned report are nonnegative. -/
theorem report_nonneg (mau dp up vls sp spc arpm dcg : ℝ) (r : Report)
    (hm : 0 ≤ mau) (hdp : 0 ≤ dp) (hup : 0 ≤ up) (hvls : 0 < vls) (hsp : 0 ≤ sp)
    (hspc : 0 ≤ spc) (harpm : 0 ≤ arpm) (hdcg : 0 ≤ dcg)
    (h : calculate_financials mau dp up vls sp spc arpm dcg = some r) :
    0 ≤ r.costs.media_processing ∧ 0 ≤ r.costs.storage_delivery ∧
      0 ≤ r.costs.database ∧ 0 ≤ r.costs.compute_recommendation ∧
      0 ≤ r.costs.devops ∧ 0 ≤ r.costs.total ∧ 0 ≤ r.subscription_revenue ∧
      0 ≤ r.ad_revenue ∧ 0 ≤ r.total_revenue := by
  rcases cf_some_elim h with ⟨hz, rfl⟩ | ⟨hnz, hp, rfl⟩
  · subst hz
    have hsub := subscription_revenue_nonneg (le_refl (0:ℝ)) hspc hsp
    have had := ad_revenue_amount_nonneg 0 vls dcg harpm
    exact ⟨le_refl 0, le_refl 0, le_refl 0, le_refl 0, le_refl 0, le_refl 0, hsub, had,
      add_nonneg hsub had⟩
  · have h1 := media_processing_cost_nonneg hm hdp hup hvls.le
    have h2 := storage_delivery_cost_nonneg hm hdp hup hdcg
    have h3 := database_cost_nonneg hm
    have h4 := compute_recommendation_cost_nonneg hm
    have h5 := devops_cost_nonneg hm
    have hsub := subscription_revenue_nonneg hm hspc hsp
    have had := ad_revenue_amount_nonneg mau vls dcg harpm
    exact ⟨h1, h2, h3, h4, h5,
      add_nonneg (add_nonneg (add_nonneg (add_nonneg h1 h2) h3) h4) h5,
      hsub, had, add_nonneg hsub had⟩

/-- Witness for C10 at a concrete in-domain input. -/
theorem report_nonneg_witness :
    0 ≤ (report_with_costs (costs_main 99 20 5 30 0.7) 99 30 7.99 2 0.1 0.7).costs.media_processing ∧
    0 ≤ (report_with_costs (costs_main 99 20 5 30 0.7) 99 30 7.99 2 0.1 0.7).costs.storage_delivery ∧
    0 ≤ (report_with_costs (costs_main 99 20 5 30 0.7) 99 30 7.99 2 0.1 0.7).costs.database ∧
    0 ≤ (report_with_costs (costs_main 99 20 5 30 0.7) 99 30 7.99 2 0.1 0.7).costs.compute_recommendation ∧
    0 ≤ (report_with_costs (costs_main 99 20 5 30 0.7) 99 30 7.99 2 0.1 0.7).costs.devops ∧
    0 ≤ (report_with_costs (costs_main 99 20 5 30 0.7) 99 30 7.99 2 0.1 0.7).costs.total ∧
    0 ≤ (report_with_costs (costs_main 99 20 5 30 0.7) 99 30 7.99 2 0.1 0.7).subscription_revenue ∧
    0 ≤ (report_with_costs (costs_main 99 20 5 30 0.7) 99 30 7.99 2 0.1 0.7).ad_revenue ∧
    0 ≤ (report_with_costs (costs_main 99 20 5 30 0.7) 99 30 7.99 2 0.1 0.7).total_revenue :=
  report_nonneg 99 20 5 30 7.99 2 0.1 0.7 _ (by norm_num) (by norm_num) (by norm_num)
    (by norm_num) (by norm_num) (by norm_num) (by norm_num) (by norm_num)
    (by unfold calculate_financials; rw [if_neg (by norm_num), if_pos (by norm_num)])

end

end CostEstimator
